import Mathlib

/-!
Shallow embedding of the office-dimmer firmware core (src/src/main.cpp).

The firmware is a single-threaded polling loop driving two WiZ smart
lights.  We embed the mutable globals (`brightness`, `studyLampOn`,
`uplightOn`, `colorTempMode`, `messageId`, the encoder hardware count and
the `lastEncoderCount` static) as a state record, and each user-visible
event (encoder rotation observed by one pass of `loop()`, encoder-button
single/double click, study/uplight button click) as a step function
returning the new state together with the list of UDP datagrams handed to
the transport.  The transport outcome of each `udp.endPacket()` call is
environment-chosen, so every event carries the success flags of the sends
it may perform.  `uint32_t` arithmetic on `messageId` is modelled as `Nat`
with an explicit `% 2 ^ 32`.
-/

namespace OfficeDimmer

def UINT32_MOD : Nat := 2 ^ 32

def MIN_BRIGHTNESS : Int := 10
def MAX_BRIGHTNESS : Int := 100
def BRIGHTNESS_STEP : Int := 2

/-- The two light identities (`STUDY_LAMP` / `UPLIGHT` IP addresses in
`secrets.h`; only their identity matters to the controller). -/
inductive Light
  | study
  | uplight
deriving DecidableEq, Repr

/-- The mutable globals of `main.cpp` plus the encoder hardware counter
(reseeded via `encoder.setCount`) and the `lastEncoderCount` static local
of `loop()`. -/
structure SysState where
  brightness : Int
  studyLampOn : Bool
  uplightOn : Bool
  colorTempMode : Nat
  messageId : Nat
  encoderCount : Int
  lastEncoderCount : Int
deriving DecidableEq, Repr

/-- State after `setup()`: `brightness = 50`, both lights off,
`colorTempMode = 0`, `messageId = 1`, encoder seeded to
`brightness / BRIGHTNESS_STEP = 25`. -/
def initialState : SysState :=
  { brightness := 50
    studyLampOn := false
    uplightOn := false
    colorTempMode := 0
    messageId := 1
    encoderCount := 50 / BRIGHTNESS_STEP
    lastEncoderCount := 50 / BRIGHTNESS_STEP }

/-- The JSON payload written into the 128-byte buffer, one constructor per
`snprintf` format: power-on with dimming, power-off, dimming+temp. -/
inductive Payload
  | powerOn (id : Nat) (dimming : Int)
  | powerOff (id : Nat)
  | dimTemp (id : Nat) (dimming : Int) (temp : Int)
deriving DecidableEq, Repr

/-- The `id` field carried in a payload. -/
def Payload.reqId : Payload → Nat
  | .powerOn i _ => i
  | .powerOff i => i
  | .dimTemp i _ _ => i

/-- One datagram handed to `udp.beginPacket/write/endPacket`, together with
the transport result (`ok = (endPacket ≠ 0)`). -/
structure Sent where
  target : Light
  payload : Payload
  ok : Bool
deriving DecidableEq, Repr

/-- `sendWizCommand(ip, state, brightness)`: builds the payload with the
current `messageId`, hands it to the transport; on failure (`result == 0`)
returns before the `messageId++`, so the counter increments only on
success. -/
def sendWizCommand (s : SysState) (ip : Light) (state : Bool) (brightness : Int)
    (ok : Bool) : SysState × Sent :=
  let p := if state then Payload.powerOn s.messageId brightness
           else Payload.powerOff s.messageId
  if ok then
    ({ s with messageId := (s.messageId + 1) % UINT32_MOD }, ⟨ip, p, true⟩)
  else
    (s, ⟨ip, p, false⟩)

/-- `sendWizColorTemp(ip, brightness, colorTemp)`: same structure with the
dimming+temp payload. -/
def sendWizColorTemp (s : SysState) (ip : Light) (brightness : Int) (colorTemp : Int)
    (ok : Bool) : SysState × Sent :=
  let p := Payload.dimTemp s.messageId brightness colorTemp
  if ok then
    ({ s with messageId := (s.messageId + 1) % UINT32_MOD }, ⟨ip, p, true⟩)
  else
    (s, ⟨ip, p, false⟩)

/-- `int temps[] = {2200, 2700, 4000, 6500}` in `handleEncoderButton`. -/
def temps : List Int := [2200, 2700, 4000, 6500]

def minCount : Int := MIN_BRIGHTNESS / BRIGHTNESS_STEP
def maxCount : Int := MAX_BRIGHTNESS / BRIGHTNESS_STEP

/-- The unconditional per-tick clamp of the encoder count in `loop()`. -/
def clampCount (c : Int) : Int :=
  if c < minCount then minCount
  else if c > maxCount then maxCount
  else c

/-- The encoder-rotation section of `loop()`: read the raw hardware count,
clamp it (reseeding the hardware via `setCount`), and if it differs from
`lastEncoderCount`, update `brightness` and send only to lights that are
on (study first, then uplight). -/
def loopTick (s : SysState) (raw : Int) (ok1 ok2 : Bool) : SysState × List Sent :=
  let c := clampCount raw
  let s0 : SysState := { s with encoderCount := c }
  if c ≠ s0.lastEncoderCount then
    let s1 : SysState := { s0 with lastEncoderCount := c, brightness := c * BRIGHTNESS_STEP }
    let r1 : SysState × List Sent :=
      if s1.studyLampOn then
        ((sendWizCommand s1 .study true s1.brightness ok1).1,
         [(sendWizCommand s1 .study true s1.brightness ok1).2])
      else (s1, [])
    let r2 : SysState × List Sent :=
      if r1.1.uplightOn then
        ((sendWizCommand r1.1 .uplight true r1.1.brightness ok2).1,
         [(sendWizCommand r1.1 .uplight true r1.1.brightness ok2).2])
      else (r1.1, [])
    (r2.1, r1.2 ++ r2.2)
  else
    (s0, [])

/-- The two gestures `handleEncoderButton` reacts to. -/
inductive EncoderGesture
  | clicked
  | doubleClicked
deriving DecidableEq, Repr

/-- `handleEncoderButton`: on click, send `sendWizColorTemp` with
`temps[colorTempMode]` to each light that is on, then advance
`colorTempMode = (colorTempMode + 1) % 4`; on double click, compute
`anyOn`, set both flags to `!anyOn`, then send to both lights
unconditionally. -/
def handleEncoderButton (s : SysState) (g : EncoderGesture) (ok1 ok2 : Bool) :
    SysState × List Sent :=
  match g with
  | .clicked =>
    let r1 : SysState × List Sent :=
      if s.studyLampOn then
        ((sendWizColorTemp s .study s.brightness (temps.getD s.colorTempMode 0) ok1).1,
         [(sendWizColorTemp s .study s.brightness (temps.getD s.colorTempMode 0) ok1).2])
      else (s, [])
    let r2 : SysState × List Sent :=
      if r1.1.uplightOn then
        ((sendWizColorTemp r1.1 .uplight r1.1.brightness (temps.getD r1.1.colorTempMode 0) ok2).1,
         [(sendWizColorTemp r1.1 .uplight r1.1.brightness (temps.getD r1.1.colorTempMode 0) ok2).2])
      else (r1.1, [])
    ({ r2.1 with colorTempMode := (r2.1.colorTempMode + 1) % 4 }, r1.2 ++ r2.2)
  | .doubleClicked =>
    let anyOn := s.studyLampOn || s.uplightOn
    let s0 : SysState := { s with studyLampOn := !anyOn, uplightOn := !anyOn }
    let q1 := sendWizCommand s0 .study s0.studyLampOn s0.brightness ok1
    let q2 := sendWizCommand q1.1 .uplight q1.1.uplightOn q1.1.brightness ok2
    (q2.1, [q1.2, q2.2])

/-- `handleStudyButton` on `kEventClicked`: toggle `studyLampOn`, then send
one command reflecting the new state. -/
def handleStudyButton (s : SysState) (ok : Bool) : SysState × List Sent :=
  let s0 : SysState := { s with studyLampOn := !s.studyLampOn }
  let q := sendWizCommand s0 .study s0.studyLampOn s0.brightness ok
  (q.1, [q.2])

/-- `handleUplightButton` on `kEventClicked`: toggle `uplightOn`, then send
one command reflecting the new state. -/
def handleUplightButton (s : SysState) (ok : Bool) : SysState × List Sent :=
  let s0 : SysState := { s with uplightOn := !s.uplightOn }
  let q := sendWizCommand s0 .uplight s0.uplightOn s0.brightness ok
  (q.1, [q.2])

/-- One user-visible event, carrying the transport outcomes of the sends
it may perform (study-lamp send first, uplight send second). -/
inductive Event
  | rotate (raw : Int) (ok1 ok2 : Bool)
  | encoderClick (ok1 ok2 : Bool)
  | encoderDoubleClick (ok1 ok2 : Bool)
  | studyClick (ok : Bool)
  | uplightClick (ok : Bool)
deriving DecidableEq, Repr

/-- Dispatch of one event, as the polling loop does. -/
def step (s : SysState) : Event → SysState × List Sent
  | .rotate raw ok1 ok2 => loopTick s raw ok1 ok2
  | .encoderClick ok1 ok2 => handleEncoderButton s .clicked ok1 ok2
  | .encoderDoubleClick ok1 ok2 => handleEncoderButton s .doubleClicked ok1 ok2
  | .studyClick ok => handleStudyButton s ok
  | .uplightClick ok => handleUplightButton s ok

/-- Run a sequence of events, accumulating the datagrams in order. -/
def run (s : SysState) : List Event → SysState × List Sent
  | [] => (s, [])
  | e :: es => ((run (step s e).1 es).1, (step s e).2 ++ (run (step s e).1 es).2)

/-- Number of datagrams the transport accepted (`endPacket ≠ 0`). -/
def countOk (l : List Sent) : Nat := l.countP (fun x => x.ok)

/-- The `id` fields of the successfully transmitted datagrams, in order. -/
def okIds (l : List Sent) : List Nat :=
  (l.filter (fun x => x.ok)).map (fun x => x.payload.reqId)

/-- The `id` fields of all datagrams handed to the transport, in order. -/
def allIds (l : List Sent) : List Nat := l.map (fun x => x.payload.reqId)

/-- The state invariant of the spec's data model: brightness step-quantized
and within bounds, color-temperature index valid modulo 4. -/
def Inv (s : SysState) : Prop :=
  BRIGHTNESS_STEP ∣ s.brightness ∧
  MIN_BRIGHTNESS ≤ s.brightness ∧ s.brightness ≤ MAX_BRIGHTNESS ∧
  s.colorTempMode < 4

/-- `dimming` field within the WiZ range `[10, 100]`. -/
def dimmingOk (d : Int) : Bool := decide (10 ≤ d) && decide (d ≤ 100)

/-- `temp` field one of the four table values. -/
def tempOk (t : Int) : Bool :=
  decide (t = 2200) || decide (t = 2700) || decide (t = 4000) || decide (t = 6500)

/-- Field constraints of §6 of the spec on one payload. -/
def payloadFieldsOk : Payload → Bool
  | .powerOn _ d => dimmingOk d
  | .powerOff _ => true
  | .dimTemp _ d t => dimmingOk d && tempOk t

/-- The light-state model of the spec (`is_on` flags, brightness,
color-temperature index), i.e. the state minus the request-id counter and
encoder bookkeeping. -/
structure LightModel where
  brightness : Int
  studyLampOn : Bool
  uplightOn : Bool
  colorTempMode : Nat
deriving DecidableEq, Repr

/-- Projection of the full state onto the light-state model. -/
def SysState.model (s : SysState) : LightModel :=
  { brightness := s.brightness
    studyLampOn := s.studyLampOn
    uplightOn := s.uplightOn
    colorTempMode := s.colorTempMode }

/-- An event stripped of its transport outcomes. -/
inductive EventKind
  | rotate (raw : Int)
  | encoderClick
  | encoderDoubleClick
  | studyClick
  | uplightClick
deriving DecidableEq, Repr

/-- Reattach transport outcomes to an event kind. -/
def EventKind.toEvent : EventKind → Bool → Bool → Event
  | .rotate raw, o1, o2 => .rotate raw o1 o2
  | .encoderClick, o1, o2 => .encoderClick o1 o2
  | .encoderDoubleClick, o1, o2 => .encoderDoubleClick o1 o2
  | .studyClick, o1, _ => .studyClick o1
  | .uplightClick, o1, _ => .uplightClick o1

/-- Decimal digits of a natural number, as `%u`/`%d` renders it. -/
def natChars (n : Nat) : List Char := Nat.toDigits 10 n

/-- Decimal rendering of an `int` as `%d` does. -/
def intChars (i : Int) : List Char :=
  if i < 0 then Char.ofNat 45 :: natChars (-i).toNat else natChars i.toNat

/-- The serialized JSON payload, character for character the output of the
three `snprintf` format strings of `sendWizCommand` / `sendWizColorTemp`
(braces written `\x7b`/`\x7d`). -/
def serializePayload : Payload → List Char
  | .powerOn i d =>
      String.toList "\x7b\"id\":" ++ natChars i ++
      String.toList ",\"method\":\"setPilot\",\"params\":\x7b\"state\":true,\"dimming\":" ++
      intChars d ++ String.toList "\x7d\x7d"
  | .powerOff i =>
      String.toList "\x7b\"id\":" ++ natChars i ++
      String.toList ",\"method\":\"setPilot\",\"params\":\x7b\"state\":false\x7d\x7d"
  | .dimTemp i d t =>
      String.toList "\x7b\"id\":" ++ natChars i ++
      String.toList ",\"method\":\"setPilot\",\"params\":\x7b\"dimming\":" ++
      intChars d ++ String.toList ",\"temp\":" ++ intChars t ++
      String.toList "\x7d\x7d"

/-- The `char json[128]` buffer size. -/
def JSON_BUFFER_SIZE : Nat := 128

/-! ## Request-id counter lemmas -/

theorem countOk_append (l1 l2 : List Sent) :
    countOk (l1 ++ l2) = countOk l1 + countOk l2 := by
  simp [countOk, List.countP_append]

/-- One event either performs at least one successful send, in which case
the counter advances by the number of successes modulo `2 ^ 32`, or it
performs none and the counter is untouched. -/
theorem step_messageId (s : SysState) (e : Event) :
    (step s e).1.messageId = (s.messageId + countOk (step s e).2) % UINT32_MOD ∨
    ((step s e).1.messageId = s.messageId ∧ countOk (step s e).2 = 0) := by
  rcases s with ⟨b, st, up, ctm, m, e1, e2⟩
  cases e with
  | rotate raw o1 o2 =>
    cases st <;> cases up <;> cases o1 <;> cases o2 <;>
      · simp only [step, loopTick]
        split_ifs with hc <;>
          simp [sendWizCommand, countOk, Nat.mod_add_mod]
  | encoderClick o1 o2 =>
    cases st <;> cases up <;> cases o1 <;> cases o2 <;>
      simp [step, handleEncoderButton, sendWizColorTemp, countOk, Nat.mod_add_mod]
  | encoderDoubleClick o1 o2 =>
    cases st <;> cases up <;> cases o1 <;> cases o2 <;>
      simp [step, handleEncoderButton, sendWizCommand, countOk, Nat.mod_add_mod]
  | studyClick o =>
    cases st <;> cases o <;>
      simp [step, handleStudyButton, sendWizCommand, countOk, Nat.mod_add_mod]
  | uplightClick o =>
    cases up <;> cases o <;>
      simp [step, handleUplightButton, sendWizCommand, countOk, Nat.mod_add_mod]

theorem step_messageId_lt (s : SysState) (e : Event) (h : s.messageId < UINT32_MOD) :
    (step s e).1.messageId < UINT32_MOD := by
  rcases step_messageId s e with h1 | ⟨h1, _⟩
  · rw [h1]; exact Nat.mod_lt _ (by norm_num [UINT32_MOD])
  · rw [h1]; exact h

theorem run_messageId (es : List Event) (s : SysState) (h : s.messageId < UINT32_MOD) :
    (run s es).1.messageId = (s.messageId + countOk (run s es).2) % UINT32_MOD := by
  induction es generalizing s with
  | nil => simpa [run, countOk] using (Nat.mod_eq_of_lt h).symm
  | cons e es ih =>
    have hlt := step_messageId_lt s e h
    have hrec := ih (step s e).1 hlt
    simp only [run, countOk_append]
    rcases step_messageId s e with h1 | ⟨h1, h2⟩
    · rw [hrec, h1, Nat.mod_add_mod, Nat.add_assoc]
    · rw [hrec, h1, h2, Nat.zero_add]

/-! ## Claim theorems -/

/-- C1: the claim states the request-id counter is incremented after every
send attempt regardless of transport outcome, so that the counter equals
1 plus the number of attempts.  False: `sendWizCommand` returns before
`messageId++` when `endPacket` reports failure.  After one failed attempt
the counter is still 1, not 2. -/
theorem claim1_counterexample :
    (run initialState [Event.studyClick false]).2.length = 1 ∧
    (run initialState [Event.studyClick false]).1.messageId = 1 ∧
    ¬ ((run initialState [Event.studyClick false]).1.messageId
        = 1 + (run initialState [Event.studyClick false]).2.length) := by
  decide

/-- C1 (amended): the counter is incremented only after successful sends;
after any sequence of attempts it equals 1 plus the number of successful
attempts, reduced modulo `2 ^ 32`. -/
theorem claim1_amended (es : List Event) :
    (run initialState es).1.messageId
      = (1 + countOk (run initialState es).2) % UINT32_MOD :=
  run_messageId es initialState (by norm_num [initialState, UINT32_MOD])


/-! ## Request-id ordering (C2) -/

theorem okIds_append (l1 l2 : List Sent) : okIds (l1 ++ l2) = okIds l1 ++ okIds l2 := by
  simp [okIds]

theorem step_okIds (s : SysState) (e : Event)
    (h : s.messageId + countOk (step s e).2 ≤ UINT32_MOD) :
    okIds (step s e).2 = List.range' s.messageId (countOk (step s e).2) := by
  rcases s with ⟨b, st, up, ctm, m, e1, e2⟩
  cases e with
  | rotate raw o1 o2 =>
    cases st <;> cases up <;> cases o1 <;> cases o2 <;>
      · simp only [step, loopTick] at h ⊢
        split_ifs with hc <;>
          · simp only [sendWizCommand, countOk, okIds] at h ⊢
            simp_all [sendWizCommand, Payload.reqId, Nat.mod_eq_of_lt, UINT32_MOD] <;>
              (rw [Nat.mod_eq_of_lt (by omega)]; rfl)
  | encoderClick o1 o2 =>
    cases st <;> cases up <;> cases o1 <;> cases o2 <;>
      · simp only [step, handleEncoderButton, sendWizColorTemp, countOk, okIds] at h ⊢
        simp_all [Payload.reqId, Nat.mod_eq_of_lt, UINT32_MOD] <;>
          (rw [Nat.mod_eq_of_lt (by omega)]; rfl)
  | encoderDoubleClick o1 o2 =>
    cases st <;> cases up <;> cases o1 <;> cases o2 <;>
      · simp only [step, handleEncoderButton, sendWizCommand, countOk, okIds] at h ⊢
        simp_all [Payload.reqId, Nat.mod_eq_of_lt, UINT32_MOD] <;>
          (rw [Nat.mod_eq_of_lt (by omega)]; rfl)
  | studyClick o =>
    cases st <;> cases o <;>
      · simp only [step, handleStudyButton, sendWizCommand, countOk, okIds] at h ⊢
        simp_all [Payload.reqId, Nat.mod_eq_of_lt, UINT32_MOD]
  | uplightClick o =>
    cases up <;> cases o <;>
      · simp only [step, handleUplightButton, sendWizCommand, countOk, okIds] at h ⊢
        simp_all [Payload.reqId, Nat.mod_eq_of_lt, UINT32_MOD]

theorem run_okIds (es : List Event) (s : SysState) (h1 : s.messageId < UINT32_MOD)
    (h2 : s.messageId + countOk (run s es).2 ≤ UINT32_MOD) :
    okIds (run s es).2 = List.range' s.messageId (countOk (run s es).2) := by
  induction es generalizing s with
  | nil => simp [run, okIds, countOk]
  | cons e es ih =>
    simp only [run, okIds_append, countOk_append] at h2 ⊢
    have hj : s.messageId + countOk (step s e).2 ≤ UINT32_MOD := by omega
    have hout1 := step_okIds s e hj
    have hs1 : (step s e).1.messageId
        = (s.messageId + countOk (step s e).2) % UINT32_MOD := by
      rcases step_messageId s e with hA | ⟨hA, hB⟩
      · exact hA
      · rw [hA, hB, Nat.add_zero, Nat.mod_eq_of_lt h1]
    by_cases hcase : s.messageId + countOk (step s e).2 < UINT32_MOD
    · have hmid : (step s e).1.messageId = s.messageId + countOk (step s e).2 := by
        rw [hs1, Nat.mod_eq_of_lt hcase]
      have hrec := ih (step s e).1 (by rw [hmid]; exact hcase) (by rw [hmid]; omega)
      rw [hout1, hrec, hmid, List.range'_append_1, Nat.add_comm]
    · have hM : s.messageId + countOk (step s e).2 = UINT32_MOD := by omega
      have hk : countOk (run (step s e).1 es).2 = 0 := by omega
      have hmid : (step s e).1.messageId = 0 := by rw [hs1, hM, Nat.mod_self]
      have hrec := ih (step s e).1 (by rw [hmid]; norm_num [UINT32_MOD])
        (by rw [hmid]; omega)
      rw [hout1, hrec, hk]
      simp

/-- C2: the claim states every sent command's id is strictly greater than
the previous command's id for the life of the process.  False: a failed
attempt does not increment the counter, so the next command reuses its id;
the trace [studyClick fail, studyClick success] hands the transport two
payloads both carrying id 1. -/
theorem claim2_counterexample :
    allIds (run initialState [Event.studyClick false, Event.studyClick true]).2 = [1, 1] ∧
    ¬ List.Chain' (· < ·)
        (allIds (run initialState [Event.studyClick false, Event.studyClick true]).2) := by
  constructor
  · decide
  · intro hch
    have : allIds (run initialState [Event.studyClick false, Event.studyClick true]).2
        = [1, 1] := by decide
    rw [this] at hch
    simp [List.chain'_cons] at hch

/-- C2 (amended): among successfully transmitted commands the payload ids
are strictly increasing, provided at most `2 ^ 32 - 1` sends succeed (the
`uint32` counter wraps). -/
theorem claim2_amended (es : List Event)
    (h : countOk (run initialState es).2 ≤ UINT32_MOD - 1) :
    List.Chain' (· < ·) (okIds (run initialState es).2) := by
  have hr := run_okIds es initialState
    (by rw [show initialState.messageId = 1 from rfl]; norm_num [UINT32_MOD])
    (by
      rw [show initialState.messageId = 1 from rfl]
      have hM : (0 : Nat) < UINT32_MOD := by norm_num [UINT32_MOD]
      omega)
  rw [hr]
  exact (List.pairwise_lt_range' _ _).chain'

/-- Witness for C2 (amended) on a concrete two-success trace. -/
theorem claim2_amended_witness :
    countOk (run initialState [Event.studyClick true, Event.uplightClick true]).2
        ≤ UINT32_MOD - 1 ∧
    List.Chain' (· < ·)
      (okIds (run initialState [Event.studyClick true, Event.uplightClick true]).2) :=
  ⟨by decide, claim2_amended _ (by decide)⟩

/-! ## Clamp helpers -/

theorem minCount_eq : minCount = 5 := by norm_num [minCount, MIN_BRIGHTNESS, BRIGHTNESS_STEP]

theorem maxCount_eq : maxCount = 50 := by norm_num [maxCount, MAX_BRIGHTNESS, BRIGHTNESS_STEP]

theorem clampCount_mem (c : Int) : minCount ≤ clampCount c ∧ clampCount c ≤ maxCount := by
  rw [clampCount, minCount_eq, maxCount_eq]
  split_ifs <;> constructor <;> omega

theorem clampCount_idem (c : Int) : clampCount (clampCount c) = clampCount c := by
  simp only [clampCount, minCount_eq, maxCount_eq]
  split_ifs <;> omega

theorem step_rotate_encoderCount (s : SysState) (raw : Int) (ok1 ok2 : Bool) :
    (step s (Event.rotate raw ok1 ok2)).1.encoderCount = clampCount raw := by
  show (loopTick s raw ok1 ok2).1.encoderCount = clampCount raw
  rcases s with ⟨b, st, up, ctm, m, e1, e2⟩
  cases st <;> cases up <;> cases ok1 <;> cases ok2 <;>
    · simp only [loopTick]
      split_ifs with hc <;> simp [sendWizCommand]

theorem step_rotate_lastEncoderCount (s : SysState) (raw : Int) (ok1 ok2 : Bool) :
    (step s (Event.rotate raw ok1 ok2)).1.lastEncoderCount = clampCount raw := by
  show (loopTick s raw ok1 ok2).1.lastEncoderCount = clampCount raw
  rcases s with ⟨b, st, up, ctm, m, e1, e2⟩
  cases st <;> cases up <;> cases ok1 <;> cases ok2 <;>
    · simp only [loopTick]
      split_ifs with hc <;> simp_all [sendWizCommand]

/-- C3: an encoder double-click computes `any_on` as the disjunction of the
two `is_on` flags, sets both flags to `!any_on`, and sends exactly one
command to each light unconditionally: power-on carrying the current
brightness when turning on, power-off when turning off. -/
theorem claim3_double_click (s : SysState) (ok1 ok2 : Bool) :
    (step s (Event.encoderDoubleClick ok1 ok2)).1.studyLampOn
        = !(s.studyLampOn || s.uplightOn) ∧
    (step s (Event.encoderDoubleClick ok1 ok2)).1.uplightOn
        = !(s.studyLampOn || s.uplightOn) ∧
    (step s (Event.encoderDoubleClick ok1 ok2)).2 =
      [⟨Light.study,
        if s.studyLampOn || s.uplightOn then Payload.powerOff s.messageId
        else Payload.powerOn s.messageId s.brightness, ok1⟩,
       ⟨Light.uplight,
        if s.studyLampOn || s.uplightOn then
          Payload.powerOff (if ok1 then (s.messageId + 1) % UINT32_MOD else s.messageId)
        else
          Payload.powerOn (if ok1 then (s.messageId + 1) % UINT32_MOD else s.messageId)
            s.brightness, ok2⟩] := by
  rcases s with ⟨b, st, up, ctm, m, e1, e2⟩
  cases st <;> cases up <;> cases ok1 <;> cases ok2 <;>
    simp [step, handleEncoderButton, sendWizCommand]

/-- C4: for a raw detent outside `[MIN/STEP, MAX/STEP]`, one polling tick
stores and observes the nearest bound, clamping happens on every tick, the
stored count stays within range, and a subsequent tick reading the stored
count does not drift. -/
theorem claim4_clamp (s : SysState) (raw : Int) (ok1 ok2 ok1' ok2' : Bool)
    (h : raw < minCount ∨ maxCount < raw) :
    (step s (Event.rotate raw ok1 ok2)).1.encoderCount
        = (if raw < minCount then minCount else maxCount) ∧
    (step s (Event.rotate raw ok1 ok2)).1.lastEncoderCount
        = (step s (Event.rotate raw ok1 ok2)).1.encoderCount ∧
    minCount ≤ (step s (Event.rotate raw ok1 ok2)).1.encoderCount ∧
    (step s (Event.rotate raw ok1 ok2)).1.encoderCount ≤ maxCount ∧
    (step (step s (Event.rotate raw ok1 ok2)).1
        (Event.rotate (step s (Event.rotate raw ok1 ok2)).1.encoderCount ok1' ok2')).1.encoderCount
      = (step s (Event.rotate raw ok1 ok2)).1.encoderCount := by
  have h1 : (step s (Event.rotate raw ok1 ok2)).1.encoderCount = clampCount raw :=
    step_rotate_encoderCount s raw ok1 ok2
  have h2 : (step s (Event.rotate raw ok1 ok2)).1.lastEncoderCount = clampCount raw :=
    step_rotate_lastEncoderCount s raw ok1 ok2
  refine ⟨?_, by rw [h1, h2], ?_, ?_, ?_⟩
  · rw [h1, clampCount, minCount_eq, maxCount_eq]
    rw [minCount_eq, maxCount_eq] at h
    split_ifs <;> omega
  · rw [h1]; exact (clampCount_mem raw).1
  · rw [h1]; exact (clampCount_mem raw).2
  · rw [h1, step_rotate_encoderCount _ _ ok1' ok2', clampCount_idem]

/-- Witness for C4 at raw detent 60 (above `maxCount = 50`). -/
theorem claim4_clamp_witness :
    ((60 : Int) < minCount ∨ maxCount < (60 : Int)) ∧
    ((step initialState (Event.rotate 60 true true)).1.encoderCount
        = (if (60 : Int) < minCount then minCount else maxCount) ∧
     (step initialState (Event.rotate 60 true true)).1.lastEncoderCount
        = (step initialState (Event.rotate 60 true true)).1.encoderCount ∧
     minCount ≤ (step initialState (Event.rotate 60 true true)).1.encoderCount ∧
     (step initialState (Event.rotate 60 true true)).1.encoderCount ≤ maxCount ∧
     (step (step initialState (Event.rotate 60 true true)).1
        (Event.rotate (step initialState (Event.rotate 60 true true)).1.encoderCount true true)).1.encoderCount
      = (step initialState (Event.rotate 60 true true)).1.encoderCount) :=
  ⟨Or.inr (by decide), claim4_clamp initialState 60 true true true true (Or.inr (by decide))⟩

/-! ## Send-function characterizations -/

@[simp] theorem sendWizCommand_fst (s : SysState) (ip : Light) (state : Bool)
    (brightness : Int) (ok : Bool) :
    (sendWizCommand s ip state brightness ok).1
      = { s with messageId := if ok then (s.messageId + 1) % UINT32_MOD else s.messageId } := by
  cases ok <;> rfl

@[simp] theorem sendWizCommand_snd (s : SysState) (ip : Light) (state : Bool)
    (brightness : Int) (ok : Bool) :
    (sendWizCommand s ip state brightness ok).2
      = ⟨ip, if state then Payload.powerOn s.messageId brightness
             else Payload.powerOff s.messageId, ok⟩ := by
  cases ok <;> rfl

@[simp] theorem sendWizColorTemp_fst (s : SysState) (ip : Light) (brightness : Int)
    (colorTemp : Int) (ok : Bool) :
    (sendWizColorTemp s ip brightness colorTemp ok).1
      = { s with messageId := if ok then (s.messageId + 1) % UINT32_MOD else s.messageId } := by
  cases ok <;> rfl

@[simp] theorem sendWizColorTemp_snd (s : SysState) (ip : Light) (brightness : Int)
    (colorTemp : Int) (ok : Bool) :
    (sendWizColorTemp s ip brightness colorTemp ok).2
      = ⟨ip, Payload.dimTemp s.messageId brightness colorTemp, ok⟩ := by
  cases ok <;> rfl

/-! ## State invariant (C5) -/

theorem step_inv (s : SysState) (e : Event) (h : Inv s) :
    Inv (step s e).1 ∧
    ((step s e).2.all fun x => payloadFieldsOk x.payload) = true := by
  obtain ⟨hdvd, hlo, hhi, hctm⟩ := h
  rcases s with ⟨b, st, up, ctm, m, e1, e2⟩
  simp only [BRIGHTNESS_STEP, MIN_BRIGHTNESS, MAX_BRIGHTNESS] at hdvd hlo hhi hctm
  cases e with
  | rotate raw o1 o2 =>
    have hc := clampCount_mem raw
    rw [minCount_eq, maxCount_eq] at hc
    cases st <;> cases up <;>
      · simp only [step, loopTick]
        split_ifs with hcond <;>
          (simp [Inv, payloadFieldsOk, dimmingOk, tempOk,
              BRIGHTNESS_STEP, MIN_BRIGHTNESS, MAX_BRIGHTNESS] <;> omega)
  | encoderClick o1 o2 =>
    interval_cases ctm <;> cases st <;> cases up <;>
      (simp [step, handleEncoderButton, Inv, payloadFieldsOk, dimmingOk,
          tempOk, temps, BRIGHTNESS_STEP, MIN_BRIGHTNESS, MAX_BRIGHTNESS] <;> omega)
  | encoderDoubleClick o1 o2 =>
    cases st <;> cases up <;>
      (simp [step, handleEncoderButton, Inv, payloadFieldsOk, dimmingOk,
          tempOk, BRIGHTNESS_STEP, MIN_BRIGHTNESS, MAX_BRIGHTNESS] <;> omega)
  | studyClick o =>
    cases st <;>
      (simp [step, handleStudyButton, Inv, payloadFieldsOk, dimmingOk,
          tempOk, BRIGHTNESS_STEP, MIN_BRIGHTNESS, MAX_BRIGHTNESS] <;> omega)
  | uplightClick o =>
    cases up <;>
      (simp [step, handleUplightButton, Inv, payloadFieldsOk, dimmingOk,
          tempOk, BRIGHTNESS_STEP, MIN_BRIGHTNESS, MAX_BRIGHTNESS] <;> omega)

theorem run_inv (es : List Event) (s : SysState) (h : Inv s) :
    Inv (run s es).1 ∧
    ((run s es).2.all fun x => payloadFieldsOk x.payload) = true := by
  induction es generalizing s with
  | nil => simpa [run] using h
  | cons e es ih =>
    obtain ⟨h1, h2⟩ := step_inv s e h
    obtain ⟨h3, h4⟩ := ih (step s e).1 h1
    simp only [run, List.all_append]
    exact ⟨h3, by simp [h2, h4]⟩

/-- C5: in every reachable state, brightness is a multiple of
`BRIGHTNESS_STEP` within `[10, 100]` and `colorTempMode` lies in `[0, 3]`;
every sent payload's `dimming` field is in `[10, 100]` and every `temp`
field is one of 2200, 2700, 4000, 6500. -/
theorem claim5_invariant (es : List Event) :
    Inv (run initialState es).1 ∧
    ((run initialState es).2.all fun x => payloadFieldsOk x.payload) = true :=
  run_inv es initialState
    ⟨⟨25, by norm_num [initialState, BRIGHTNESS_STEP]⟩,
     by norm_num [initialState, MIN_BRIGHTNESS],
     by norm_num [initialState, MAX_BRIGHTNESS],
     by norm_num [initialState]⟩

/-- Single encoder click advances the color-temperature index modulo 4,
regardless of which lights are on. -/
theorem step_click_colorTempMode (s : SysState) (o1 o2 : Bool) :
    (step s (Event.encoderClick o1 o2)).1.colorTempMode = (s.colorTempMode + 1) % 4 := by
  rcases s with ⟨b, st, up, ctm, m, e1, e2⟩
  cases st <;> cases up <;> simp [step, handleEncoderButton]

/-- C6: a click of one light's button toggles exactly that light and sends
exactly one command to it reflecting the new state (power-on carries the
current brightness, power-off carries no brightness field); two clicks
restore `is_on` and send two commands, the second the logical inverse of
the first. -/
theorem claim6_single_button (s : SysState) (ok1 ok2 : Bool) :
    (step s (Event.studyClick ok1)).1.studyLampOn = !s.studyLampOn ∧
    (step s (Event.studyClick ok1)).1.uplightOn = s.uplightOn ∧
    (step s (Event.studyClick ok1)).1.brightness = s.brightness ∧
    (step s (Event.studyClick ok1)).2 =
      [⟨Light.study,
        if s.studyLampOn then Payload.powerOff s.messageId
        else Payload.powerOn s.messageId s.brightness, ok1⟩] ∧
    (step s (Event.uplightClick ok1)).1.uplightOn = !s.uplightOn ∧
    (step s (Event.uplightClick ok1)).1.studyLampOn = s.studyLampOn ∧
    (step s (Event.uplightClick ok1)).1.brightness = s.brightness ∧
    (step s (Event.uplightClick ok1)).2 =
      [⟨Light.uplight,
        if s.uplightOn then Payload.powerOff s.messageId
        else Payload.powerOn s.messageId s.brightness, ok1⟩] ∧
    (run s [Event.studyClick ok1, Event.studyClick ok2]).1.studyLampOn = s.studyLampOn ∧
    (run s [Event.studyClick ok1, Event.studyClick ok2]).2 =
      [⟨Light.study,
        if s.studyLampOn then Payload.powerOff s.messageId
        else Payload.powerOn s.messageId s.brightness, ok1⟩,
       ⟨Light.study,
        if s.studyLampOn then
          Payload.powerOn (if ok1 then (s.messageId + 1) % UINT32_MOD else s.messageId)
            s.brightness
        else
          Payload.powerOff (if ok1 then (s.messageId + 1) % UINT32_MOD else s.messageId),
        ok2⟩] ∧
    (run s [Event.uplightClick ok1, Event.uplightClick ok2]).1.uplightOn = s.uplightOn ∧
    (run s [Event.uplightClick ok1, Event.uplightClick ok2]).2 =
      [⟨Light.uplight,
        if s.uplightOn then Payload.powerOff s.messageId
        else Payload.powerOn s.messageId s.brightness, ok1⟩,
       ⟨Light.uplight,
        if s.uplightOn then
          Payload.powerOn (if ok1 then (s.messageId + 1) % UINT32_MOD else s.messageId)
            s.brightness
        else
          Payload.powerOff (if ok1 then (s.messageId + 1) % UINT32_MOD else s.messageId),
        ok2⟩] := by
  rcases s with ⟨b, st, up, ctm, m, e1, e2⟩
  cases st <;> cases up <;> cases ok1 <;>
    simp [step, run, handleStudyButton, handleUplightButton]

/-- C7: an encoder single click sends `set_brightness_and_temp` with the
current brightness and `temps[colorTempMode]` to exactly the lights that
are on, then advances the index modulo 4 regardless; four clicks return
the index to its start.  The table is 2200K, 2700K, 4000K, 6500K in
order. -/
theorem claim7_color_temp (s : SysState)
    (ok1 ok2 a1 a2 b1 b2 c1 c2 d1 d2 : Bool) (h : s.colorTempMode < 4) :
    temps = [2200, 2700, 4000, 6500] ∧
    (step s (Event.encoderClick ok1 ok2)).1.colorTempMode = (s.colorTempMode + 1) % 4 ∧
    (step s (Event.encoderClick ok1 ok2)).1.studyLampOn = s.studyLampOn ∧
    (step s (Event.encoderClick ok1 ok2)).1.uplightOn = s.uplightOn ∧
    (step s (Event.encoderClick ok1 ok2)).1.brightness = s.brightness ∧
    (step s (Event.encoderClick ok1 ok2)).2 =
      (if s.studyLampOn then
         [⟨Light.study,
           Payload.dimTemp s.messageId s.brightness (temps.getD s.colorTempMode 0), ok1⟩]
       else []) ++
      (if s.uplightOn then
         [⟨Light.uplight,
           Payload.dimTemp
             (if s.studyLampOn && ok1 then (s.messageId + 1) % UINT32_MOD else s.messageId)
             s.brightness (temps.getD s.colorTempMode 0), ok2⟩]
       else []) ∧
    (run s [Event.encoderClick a1 a2, Event.encoderClick b1 b2,
        Event.encoderClick c1 c2, Event.encoderClick d1 d2]).1.colorTempMode
      = s.colorTempMode := by
  refine ⟨rfl, step_click_colorTempMode s ok1 ok2, ?_, ?_, ?_, ?_, ?_⟩
  · rcases s with ⟨b, st, up, ctm, m, e1, e2⟩
    cases st <;> cases up <;> simp [step, handleEncoderButton]
  · rcases s with ⟨b, st, up, ctm, m, e1, e2⟩
    cases st <;> cases up <;> simp [step, handleEncoderButton]
  · rcases s with ⟨b, st, up, ctm, m, e1, e2⟩
    cases st <;> cases up <;> simp [step, handleEncoderButton]
  · rcases s with ⟨b, st, up, ctm, m, e1, e2⟩
    cases st <;> cases up <;> cases ok1 <;> simp [step, handleEncoderButton]
  · simp only [run, List.append_nil]
    rw [step_click_colorTempMode, step_click_colorTempMode, step_click_colorTempMode,
      step_click_colorTempMode]
    omega

/-- Witness for C7 from the initial state. -/
theorem claim7_color_temp_witness :
    initialState.colorTempMode < 4 ∧
    (temps = [2200, 2700, 4000, 6500] ∧
     (step initialState (Event.encoderClick true true)).1.colorTempMode
        = (initialState.colorTempMode + 1) % 4 ∧
     (step initialState (Event.encoderClick true true)).1.studyLampOn
        = initialState.studyLampOn ∧
     (step initialState (Event.encoderClick true true)).1.uplightOn
        = initialState.uplightOn ∧
     (step initialState (Event.encoderClick true true)).1.brightness
        = initialState.brightness ∧
     (step initialState (Event.encoderClick true true)).2 =
      (if initialState.studyLampOn then
         [⟨Light.study,
           Payload.dimTemp initialState.messageId initialState.brightness
             (temps.getD initialState.colorTempMode 0), true⟩]
       else []) ++
      (if initialState.uplightOn then
         [⟨Light.uplight,
           Payload.dimTemp
             (if initialState.studyLampOn && true then
               (initialState.messageId + 1) % UINT32_MOD
              else initialState.messageId)
             initialState.brightness (temps.getD initialState.colorTempMode 0), true⟩]
       else []) ∧
     (run initialState [Event.encoderClick true true, Event.encoderClick true true,
        Event.encoderClick true true, Event.encoderClick true true]).1.colorTempMode
      = initialState.colorTempMode) :=
  ⟨by decide, claim7_color_temp initialState true true true true true true true true
    true true (by decide)⟩

/-- C8: a rotation observed while both lights are off updates brightness
but sends nothing and leaves both `is_on` flags false; the next power-on
command for either light (single click or double click) carries the new
brightness. -/
theorem claim8_rotate_while_off (s : SysState) (raw : Int) (ok1 ok2 o3 o4 : Bool)
    (hst : s.studyLampOn = false) (hup : s.uplightOn = false)
    (hchg : clampCount raw ≠ s.lastEncoderCount) :
    (step s (Event.rotate raw ok1 ok2)).2 = [] ∧
    (step s (Event.rotate raw ok1 ok2)).1.studyLampOn = false ∧
    (step s (Event.rotate raw ok1 ok2)).1.uplightOn = false ∧
    (step s (Event.rotate raw ok1 ok2)).1.brightness = clampCount raw * BRIGHTNESS_STEP ∧
    (step (step s (Event.rotate raw ok1 ok2)).1 (Event.studyClick o3)).2 =
      [⟨Light.study, Payload.powerOn s.messageId (clampCount raw * BRIGHTNESS_STEP), o3⟩] ∧
    (step (step s (Event.rotate raw ok1 ok2)).1 (Event.uplightClick o3)).2 =
      [⟨Light.uplight, Payload.powerOn s.messageId (clampCount raw * BRIGHTNESS_STEP), o3⟩] ∧
    (step (step s (Event.rotate raw ok1 ok2)).1 (Event.encoderDoubleClick o3 o4)).2 =
      [⟨Light.study, Payload.powerOn s.messageId (clampCount raw * BRIGHTNESS_STEP), o3⟩,
       ⟨Light.uplight,
        Payload.powerOn (if o3 then (s.messageId + 1) % UINT32_MOD else s.messageId)
          (clampCount raw * BRIGHTNESS_STEP), o4⟩] := by
  rcases s with ⟨b, st, up, ctm, m, e1, e2⟩
  simp only at hst hup hchg
  subst hst; subst hup
  simp [step, loopTick, handleStudyButton, handleUplightButton, handleEncoderButton, hchg]

/-- Witness for C8: rotation to detent 20 from the initial state. -/
theorem claim8_rotate_while_off_witness :
    (initialState.studyLampOn = false ∧ initialState.uplightOn = false ∧
     clampCount 20 ≠ initialState.lastEncoderCount) ∧
    ((step initialState (Event.rotate 20 true true)).2 = [] ∧
     (step initialState (Event.rotate 20 true true)).1.studyLampOn = false ∧
     (step initialState (Event.rotate 20 true true)).1.uplightOn = false ∧
     (step initialState (Event.rotate 20 true true)).1.brightness
        = clampCount 20 * BRIGHTNESS_STEP ∧
     (step (step initialState (Event.rotate 20 true true)).1 (Event.studyClick true)).2 =
      [⟨Light.study,
        Payload.powerOn initialState.messageId (clampCount 20 * BRIGHTNESS_STEP), true⟩] ∧
     (step (step initialState (Event.rotate 20 true true)).1 (Event.uplightClick true)).2 =
      [⟨Light.uplight,
        Payload.powerOn initialState.messageId (clampCount 20 * BRIGHTNESS_STEP), true⟩] ∧
     (step (step initialState (Event.rotate 20 true true)).1
        (Event.encoderDoubleClick true true)).2 =
      [⟨Light.study,
        Payload.powerOn initialState.messageId (clampCount 20 * BRIGHTNESS_STEP), true⟩,
       ⟨Light.uplight,
        Payload.powerOn
          (if true then (initialState.messageId + 1) % UINT32_MOD else initialState.messageId)
          (clampCount 20 * BRIGHTNESS_STEP), true⟩]) :=
  ⟨⟨rfl, rfl, by decide⟩,
   claim8_rotate_while_off initialState 20 true true true true rfl rfl (by decide)⟩

/-- C9: every handler applies its state change before invoking the send,
and a transport failure does not roll it back: the light-state model
(`is_on` flags, brightness, color-temperature index) after an event is the
same whatever the transport outcomes, failed or successful. -/
theorem claim9_state_retained (s : SysState) (k : EventKind) (o1 o2 o1' o2' : Bool) :
    ((step s (k.toEvent o1 o2)).1).model = ((step s (k.toEvent o1' o2')).1).model := by
  rcases s with ⟨b, st, up, ctm, m, e1, e2⟩
  cases k with
  | rotate raw =>
    cases st <;> cases up <;>
      · simp only [EventKind.toEvent, step, loopTick]
        split_ifs with hc <;> simp [SysState.model]
  | encoderClick =>
    cases st <;> cases up <;>
      simp [EventKind.toEvent, step, handleEncoderButton, SysState.model]
  | encoderDoubleClick =>
    cases st <;> cases up <;>
      simp [EventKind.toEvent, step, handleEncoderButton, SysState.model]
  | studyClick =>
    cases st <;> simp [EventKind.toEvent, step, handleStudyButton, SysState.model]
  | uplightClick =>
    cases up <;> simp [EventKind.toEvent, step, handleUplightButton, SysState.model]

/-! ## Serialization bounds (C10) -/

theorem natChars_length_le (n e : Nat) (he : 0 < e) (h : n < 10 ^ e) :
    (natChars n).length ≤ e :=
  Nat.toDigitsCore_length 10 (by norm_num) (n + 1) n e h he

theorem intChars_length_le_of_nonneg (d : Int) (e : Nat) (he : 0 < e)
    (hd : 0 ≤ d) (h : d < (10 : Int) ^ e) :
    (intChars d).length ≤ e := by
  rw [intChars, if_neg (by omega)]
  refine natChars_length_le _ e he ?_
  have : (d.toNat : Int) < (10 : Int) ^ e := by rwa [Int.toNat_of_nonneg hd]
  exact_mod_cast this

/-- C10: with `dimming ∈ [10, 100]`, `temp` one of the four table values
and any `uint32` id, each of the three serialized JSON payloads is
strictly shorter than the 128-byte `char json[128]` buffer, so `snprintf`
never truncates. -/
theorem claim10_payload_fits (i : Nat) (d t : Int) (hi : i < UINT32_MOD)
    (hd1 : 10 ≤ d) (hd2 : d ≤ 100)
    (ht : t = 2200 ∨ t = 2700 ∨ t = 4000 ∨ t = 6500) :
    (serializePayload (Payload.powerOn i d)).length < JSON_BUFFER_SIZE ∧
    (serializePayload (Payload.powerOff i)).length < JSON_BUFFER_SIZE ∧
    (serializePayload (Payload.dimTemp i d t)).length < JSON_BUFFER_SIZE := by
  have hid : (natChars i).length ≤ 10 := by
    refine natChars_length_le i 10 (by norm_num) ?_
    calc i < UINT32_MOD := hi
    _ ≤ 10 ^ 10 := by norm_num [UINT32_MOD]
  have hdlen : (intChars d).length ≤ 3 :=
    intChars_length_le_of_nonneg d 3 (by norm_num) (by omega) (by norm_num; omega)
  have htlen : (intChars t).length ≤ 4 := by
    rcases ht with h | h | h | h <;> subst h <;> decide
  refine ⟨?_, ?_, ?_⟩ <;>
    · simp only [serializePayload, JSON_BUFFER_SIZE, List.length_append]
      have c1 : (String.toList "\x7b\"id\":").length = 6 := rfl
      have c2 : (String.toList
        ",\"method\":\"setPilot\",\"params\":\x7b\"state\":true,\"dimming\":").length = 54 := rfl
      have c3 : (String.toList "\x7d\x7d").length = 2 := rfl
      have c4 : (String.toList
        ",\"method\":\"setPilot\",\"params\":\x7b\"state\":false\x7d\x7d").length = 46 := rfl
      have c5 : (String.toList
        ",\"method\":\"setPilot\",\"params\":\x7b\"dimming\":").length = 41 := rfl
      have c6 : (String.toList ",\"temp\":").length = 8 := rfl
      omega

/-- Witness for C10 at the longest instances of all three payloads. -/
theorem claim10_payload_fits_witness :
    ((4294967295 : Nat) < UINT32_MOD ∧ (10 : Int) ≤ 100 ∧ (100 : Int) ≤ 100 ∧
     ((6500 : Int) = 2200 ∨ (6500 : Int) = 2700 ∨ (6500 : Int) = 4000 ∨
      (6500 : Int) = 6500)) ∧
    ((serializePayload (Payload.powerOn 4294967295 100)).length < JSON_BUFFER_SIZE ∧
     (serializePayload (Payload.powerOff 4294967295)).length < JSON_BUFFER_SIZE ∧
     (serializePayload (Payload.dimTemp 4294967295 100 6500)).length < JSON_BUFFER_SIZE) :=
  ⟨⟨by norm_num [UINT32_MOD], by norm_num, by norm_num, by norm_num⟩,
   claim10_payload_fits 4294967295 100 6500 (by norm_num [UINT32_MOD])
     (by norm_num) (by norm_num) (by norm_num)⟩

end OfficeDimmer
